import Mathlib

/-!
Verification development for the Agentreplay Python SDK client-side trace
pipeline: the span model (`agentreplay/decorators.py`), the privacy /
redaction filter (`agentreplay/privacy.py`), the SDK facade
(`agentreplay/sdk.py`), and the LangChain callback adapter
(`examples/langchain_callback.py`).

Python values flowing through the pipeline are JSON-serializable data;
they are embedded as the inductive `JValue`.  Machine floats appear in the
source only as wall-clock timestamps (`time.time()`, float seconds) and as
configuration durations; timestamps are modelled as `Nat` microsecond
counts (the unit the wire format uses) and configuration durations as
`Rat`, since no claim computes with them.
-/

set_option maxHeartbeats 1000000

namespace AgentReplay

/-- A JSON-serializable Python value: dicts, lists, strings and scalars.
Dict entries keep insertion order, as Python dicts do. -/
inductive JValue where
  | str (s : String)
  | num (n : Int)
  | bool (b : Bool)
  | null
  | arr (xs : List JValue)
  | obj (fields : List (String × JValue))
  deriving Repr

mutual

/-- Structural Boolean equality on `JValue`. -/
def beqJ : JValue → JValue → Bool
  | .str a, .str b => a == b
  | .num a, .num b => a == b
  | .bool a, .bool b => a == b
  | .null, .null => true
  | .arr a, .arr b => beqArr a b
  | .obj a, .obj b => beqObj a b
  | _, _ => false
termination_by structural a => a

/-- Elementwise Boolean equality on value lists. -/
def beqArr : List JValue → List JValue → Bool
  | [], [] => true
  | x :: xs, y :: ys => beqJ x y && beqArr xs ys
  | _, _ => false
termination_by structural a => a

/-- Elementwise Boolean equality on object field lists. -/
def beqObj : List (String × JValue) → List (String × JValue) → Bool
  | [], [] => true
  | (k, v) :: xs, (l, w) :: ys => k == l && beqJ v w && beqObj xs ys
  | _, _ => false
termination_by structural a => a

end

/- The three lemmas below only furnish the decidable-equality instance
that the later definitions derive from; they are support for the data
model, not claim theorems. -/

mutual

theorem beqJ_iff : ∀ a b, beqJ a b = true ↔ a = b
  | a, b => by
    cases a <;> cases b
    case arr.arr x y => simp only [beqJ, JValue.arr.injEq]; exact beqArr_iff x y
    case obj.obj x y => simp only [beqJ, JValue.obj.injEq]; exact beqObj_iff x y
    all_goals simp [beqJ]

theorem beqArr_iff : ∀ a b, beqArr a b = true ↔ a = b
  | [], [] => by simp [beqArr]
  | [], _ :: _ => by simp [beqArr]
  | _ :: _, [] => by simp [beqArr]
  | x :: xs, y :: ys => by
    simp only [beqArr, Bool.and_eq_true, List.cons.injEq,
      beqJ_iff x y, beqArr_iff xs ys]

theorem beqObj_iff : ∀ a b, beqObj a b = true ↔ a = b
  | [], [] => by simp [beqObj]
  | [], _ :: _ => by simp [beqObj]
  | _ :: _, [] => by simp [beqObj]
  | (k, v) :: xs, (l, w) :: ys => by
    simp only [beqObj, Bool.and_eq_true, List.cons.injEq, Prod.mk.injEq,
      beq_iff_eq, beqJ_iff v w, beqObj_iff xs ys]

end

instance : DecidableEq JValue := fun a b =>
  decidable_of_iff (beqJ a b = true) (beqJ_iff a b)

/-- Hex digit character, lowercase (`0123456789abcdef`), mirroring the
formatting used by `uuid.UUID.hex` and `%x`. -/
def hexChar (d : Nat) : Char :=
  if d < 10 then Char.ofNat (48 + d) else Char.ofNat (87 + d)

/-- Four-digit hex rendering of a code unit, used by JSON `\uXXXX` escapes. -/
def hex4 (n : Nat) : String :=
  String.mk [hexChar (n / 4096 % 16), hexChar (n / 256 % 16),
             hexChar (n / 16 % 16), hexChar (n % 16)]

/-- Escape of one character inside a JSON string, following
`json.dumps` with its default `ensure_ascii=True`: `"` and `\` are
backslash-escaped, the named control escapes are used for `\b \t \n \f \r`,
every other character outside `0x20..0x7e` becomes `\uXXXX` (a surrogate
pair for code points above `0xFFFF`). -/
def escapeChar (c : Char) : String :=
  if c = '"' then "\\\""
  else if c = '\\' then "\\\\"
  else if c.toNat = 8 then "\\b"
  else if c.toNat = 9 then "\\t"
  else if c.toNat = 10 then "\\n"
  else if c.toNat = 12 then "\\f"
  else if c.toNat = 13 then "\\r"
  else if c.toNat < 32 then "\\u" ++ hex4 c.toNat
  else if c.toNat ≤ 126 then String.mk [c]
  else if c.toNat ≤ 65535 then "\\u" ++ hex4 c.toNat
  else
    let v := c.toNat - 65536
    "\\u" ++ hex4 (55296 + v / 1024) ++ "\\u" ++ hex4 (56320 + v % 1024)

/-- JSON string-body escaping (`json.dumps` on a `str`, without the
surrounding quotes). -/
def jescape (s : String) : String :=
  String.join (s.data.map escapeChar)

mutual

/-- Serialization of a `JValue` as `json.dumps(data, default=str)` renders
it: default separators are `", "` between items and `": "` after keys. -/
def jserialize : JValue → String
  | .str s => "\"" ++ jescape s ++ "\""
  | .num n => toString n
  | .bool b => if b then "true" else "false"
  | .null => "null"
  | .arr xs => "[" ++ jserializeArr xs ++ "]"
  | .obj fs => "\x7b" ++ jserializeObj fs ++ "\x7d"
termination_by structural v => v

/-- Comma-joined serialization of array elements. -/
def jserializeArr : List JValue → String
  | [] => ""
  | [x] => jserialize x
  | x :: y :: rest => jserialize x ++ ", " ++ jserializeArr (y :: rest)
termination_by structural l => l

/-- Comma-joined serialization of object entries. -/
def jserializeObj : List (String × JValue) → String
  | [] => ""
  | [(k, v)] => "\"" ++ jescape k ++ "\": " ++ jserialize v
  | (k, v) :: e :: rest =>
      "\"" ++ jescape k ++ "\": " ++ jserialize v ++ ", " ++ jserializeObj (e :: rest)
termination_by structural l => l

end

/-! ## Privacy / redaction filter (`agentreplay/privacy.py`)

A compiled regular expression is embedded abstractly by its two
substitution behaviours used in `_redact_string`: `pattern.sub`
with a constant replacement string, and `pattern.sub` with a
per-match replacement function (the hashing mode).  A string on which the
pattern has no match is exactly a string both substitutions leave
unchanged. -/

/-- Abstract compiled regex: `subConst repl s` embeds `pattern.sub(repl, s)`
and `subFun f s` embeds `pattern.sub(lambda m: f(m.group(0)), s)`. -/
structure PrivacyPattern where
  subConst : String → String → String
  subFun : (String → String) → String → String

/-- `PrivacyConfig` from `privacy.py`.  The field `hash_value` embeds the
closure `_hash_value` (a salted SHA-256 prefix, abstracted since no claim
depends on the hash bytes). -/
structure PrivacyConfig where
  enabled : Bool
  redact_patterns : List PrivacyPattern
  scrub_paths : List String
  hash_pii : Bool
  hash_salt : String
  custom_redactor : Option (String → String)
  redacted_text : String
  hash_value : String → String

/-- ASCII lower-casing of one character, as `Char.toLower` does; key paths
are ASCII so this matches Python `str.lower()` on them. -/
def lowerChar (c : Char) : Char :=
  if 65 ≤ c.toNat ∧ c.toNat ≤ 90 then Char.ofNat (c.toNat + 32) else c

/-- `str.lower()` on a path string (character-wise ASCII lower-casing). -/
def pyLower (s : String) : String :=
  String.mk (s.data.map lowerChar)

/-- `str.endswith(suffix)`. -/
def pyEndsWith (s suffix : String) : Bool :=
  suffix.data.isSuffixOf s.data

/-- `_should_scrub_path`: a path is scrubbed when it equals a configured
scrub path case-insensitively, or ends with `"." + scrub_path`
case-insensitively. -/
def should_scrub_path (cfg : PrivacyConfig) (path : String) : Bool :=
  cfg.scrub_paths.any fun sp =>
    pyLower path == pyLower sp || pyEndsWith (pyLower path) ("." ++ pyLower sp)

/-- The pattern loop of `_redact_string`: each pattern is applied to the
result of the previous one; hashing mode uses the per-match function. -/
def applyPatterns (cfg : PrivacyConfig) : List PrivacyPattern → String → String
  | [], r => r
  | p :: ps, r =>
      let r' := if cfg.hash_pii then p.subFun cfg.hash_value r
                else p.subConst cfg.redacted_text r
      applyPatterns cfg ps r'

/-- `_redact_string`: empty strings are returned as-is; otherwise the
custom redactor (when configured) runs first, then every configured
pattern in order. -/
def redact_string (cfg : PrivacyConfig) (value : String) : String :=
  if value = "" then value
  else
    let r0 := match cfg.custom_redactor with
      | some f => f value
      | none => value
    applyPatterns cfg cfg.redact_patterns r0

mutual

/-- `_redact_value`: the path-scrub check runs first at every node (the
root path `""` is exempt); a scrubbed path replaces the whole subtree with
the marker; otherwise dicts and lists recurse with extended paths
(`path.key` and `path[i]`) and string leaves go through `_redact_string`. -/
def redact_value (cfg : PrivacyConfig) (v : JValue) (path : String) : JValue :=
  if path != "" && should_scrub_path cfg path then .str cfg.redacted_text
  else
    match v with
    | .obj fs => .obj (redact_fields cfg fs path)
    | .arr xs => .arr (redact_items cfg xs path 0)
    | .str s => .str (redact_string cfg s)
    | v => v
termination_by structural v

/-- Dict recursion of `_redact_value`: child path is `k` at the root and
`path ++ "." ++ k` below it. -/
def redact_fields (cfg : PrivacyConfig) :
    List (String × JValue) → String → List (String × JValue)
  | [], _ => []
  | (k, x) :: rest, path =>
      (k, redact_value cfg x (if path = "" then k else path ++ "." ++ k)) ::
        redact_fields cfg rest path
termination_by structural l _ => l

/-- List recursion of `_redact_value`: child path is `path ++ "[i]"` from
`enumerate`. -/
def redact_items (cfg : PrivacyConfig) :
    List JValue → String → Nat → List JValue
  | [], _, _ => []
  | x :: rest, path, i =>
      redact_value cfg x (path ++ "[" ++ toString i ++ "]") ::
        redact_items cfg rest path (i + 1)
termination_by structural l _ _ => l

end

/-- `redact_payload`: identity when privacy is disabled, otherwise
`_redact_value` from the root path `""`. -/
def redact_payload (cfg : PrivacyConfig) (payload : JValue) : JValue :=
  if !cfg.enabled then payload
  else redact_value cfg payload ""

/-! ## Span model (`agentreplay/decorators.py`)

Timestamps (`time.time()` float seconds in the source) are carried as
`Nat` microsecond counts, the unit the serialized edge uses. -/

/-- The error stored by `ActiveSpan.set_error`: exception class name,
message, and the formatted traceback. -/
structure SpanError where
  etype : String
  emsg : String
  estack : String
  deriving DecidableEq, Repr

/-- `ActiveSpan.__init__` fields.  `ended` embeds the private `_ended`
flag. -/
structure ActiveSpan where
  name : String
  kind : String
  span_id : String
  parent_id : Option String
  trace_id : String
  start_time : Nat
  end_time : Option Nat
  attributes : List (String × JValue)
  events : List JValue
  input_data : Option JValue
  output_data : Option JValue
  error : Option SpanError
  token_usage : List (String × Nat)
  ended : Bool
  deriving DecidableEq, Repr

/-- Python dict assignment `d[k] = v` on an insertion-ordered dict:
overwrite in place when the key exists, else append. -/
def dictSet {α : Type} (l : List (String × α)) (k : String) (v : α) :
    List (String × α) :=
  if l.any (fun p => p.1 == k) then
    l.map fun p => if p.1 == k then (k, v) else p
  else l ++ [(k, v)]

/-- `dict.get(k, d)`. -/
def dictGet {α : Type} (l : List (String × α)) (k : String) (d : α) : α :=
  match List.lookup k l with
  | some v => v
  | none => d

/-- `ActiveSpan.set_input` (note: no check of the ended flag). -/
def set_input (s : ActiveSpan) (data : JValue) : ActiveSpan :=
  { s with input_data := some data }

/-- `ActiveSpan.set_output` (note: no check of the ended flag). -/
def set_output (s : ActiveSpan) (data : JValue) : ActiveSpan :=
  { s with output_data := some data }

/-- `ActiveSpan.set_attribute` (note: no check of the ended flag). -/
def set_attribute (s : ActiveSpan) (key : String) (value : JValue) : ActiveSpan :=
  { s with attributes := dictSet s.attributes key value }

/-- `ActiveSpan.set_error`: records the exception and mirrors it into the
`error.type` / `error.message` / `error.stack` attributes (no check of the
ended flag). -/
def set_error (s : ActiveSpan) (e : SpanError) : ActiveSpan :=
  { s with
    error := some e,
    attributes :=
      dictSet (dictSet (dictSet s.attributes "error.type" (.str e.etype))
        "error.message" (.str e.emsg)) "error.stack" (.str e.estack) }

/-- `ActiveSpan.set_token_usage`: each provided count updates the usage
dict and the matching `gen_ai.usage.*` attribute (no check of the ended
flag). -/
def set_token_usage (s : ActiveSpan)
    (prompt_tokens completion_tokens total_tokens : Option Nat) : ActiveSpan :=
  let s1 := match prompt_tokens with
    | some n =>
        { s with token_usage := dictSet s.token_usage "prompt" n,
                 attributes := dictSet s.attributes
                   "gen_ai.usage.prompt_tokens" (.num n) }
    | none => s
  let s2 := match completion_tokens with
    | some n =>
        { s1 with token_usage := dictSet s1.token_usage "completion" n,
                  attributes := dictSet s1.attributes
                    "gen_ai.usage.completion_tokens" (.num n) }
    | none => s1
  match total_tokens with
  | some n =>
      { s2 with token_usage := dictSet s2.token_usage "total" n,
                attributes := dictSet s2.attributes
                  "gen_ai.usage.total_tokens" (.num n) }
  | none => s2

/-! ## SDK facade configuration (`agentreplay/sdk.py`) -/

/-- The resolved `SDKConfig` dataclass.  Durations (Python floats) are
carried as `Rat`. -/
structure SDKConfig where
  api_key : Option String
  base_url : String
  tenant_id : Int
  project_id : Int
  agent_id : Int
  environment : String
  service_name : String
  enabled : Bool
  debug : Bool
  strict : Bool
  batch_size : Nat
  flush_interval : Rat
  max_queue_size : Nat
  timeout : Rat
  flush_timeout : Rat
  capture_input : Bool
  capture_output : Bool
  redact_patterns : List String
  max_payload_size : Nat
  deriving DecidableEq, Repr

/-! ## Wire model and delivery hand-off

`agentreplay.models` and `agentreplay.batching` are imported by the SDK
but are not part of this source set; the edge record and the batching
state are modelled from the construction site in `ActiveSpan._send` and
from the spec. -/

/-- Modelled from the spec: the `SpanType` enumeration of
`agentreplay.models` is absent from this source set; the variants are the
span kinds of spec section 3, of which `_send` uses `ROOT` and
`TOOL_CALL`. -/
inductive SpanType where
  | ROOT
  | PLANNING
  | REASONING
  | TOOL_CALL
  | TOOL_RESPONSE
  | SYNTHESIS
  | RESPONSE
  | ERROR
  | RETRIEVAL
  | EMBEDDING
  | HTTP_CALL
  | DATABASE
  | FUNCTION
  | RERANKING
  | PARSING
  | GENERATION
  | CUSTOM
  deriving DecidableEq, Repr

/-- Modelled from the spec: `agentreplay.models.AgentFlowEdge` is absent
from this source set; the fields are those supplied at the construction
site in `ActiveSpan._send` (spec section 6 wire contract). -/
structure AgentFlowEdge where
  tenant_id : Int
  project_id : Int
  agent_id : Int
  session_id : Nat
  span_type : SpanType
  timestamp_us : Nat
  duration_us : Nat
  token_count : Nat
  payload : List (String × JValue)
  deriving DecidableEq, Repr

/-- The `span_type_map.get(self.kind, SpanType.ROOT)` lookup in
`ActiveSpan._send`. -/
def span_type_of_kind (kind : String) : SpanType :=
  if kind == "chain" then .ROOT
  else if kind == "llm" then .TOOL_CALL
  else if kind == "tool" then .TOOL_CALL
  else if kind == "retriever" then .TOOL_CALL
  else if kind == "embedding" then .TOOL_CALL
  else .ROOT

/-- `ActiveSpan._safe_serialize` with its default `max_size = 10000`:
data whose JSON rendering exceeds the limit is replaced by a truncation
marker carrying a 1000-character preview.  (The `except` fallback of the
source is unreachable for JSON-serializable data.) -/
def safe_serialize (data : JValue) : JValue :=
  let serialized := jserialize data
  if serialized.length > 10000 then
    .obj [("__truncated", .bool true), ("__preview", .str (serialized.take 1000))]
  else data

/-- Value of a hex digit character; `int(s, 16)` raises on other
characters, which cannot occur in a generated trace id. -/
def hexVal (c : Char) : Nat :=
  if 48 ≤ c.toNat ∧ c.toNat ≤ 57 then c.toNat - 48
  else if 97 ≤ c.toNat ∧ c.toNat ≤ 102 then c.toNat - 87
  else if 65 ≤ c.toNat ∧ c.toNat ≤ 70 then c.toNat - 55
  else 0

/-- `int(s, 16)` on a hex string. -/
def parseHex (s : String) : Nat :=
  s.data.foldl (fun acc c => 16 * acc + hexVal c) 0

/-- The payload dict built by `ActiveSpan._send`: `input` and `output`
only when set and capture is enabled, then `attributes`, `events` and
`error` when non-empty. -/
def send_payload (cfg : SDKConfig) (s : ActiveSpan) : List (String × JValue) :=
  (match s.input_data with
   | some d => if cfg.capture_input then [("input", safe_serialize d)] else []
   | none => []) ++
  (match s.output_data with
   | some d => if cfg.capture_output then [("output", safe_serialize d)] else []
   | none => []) ++
  (if s.attributes.isEmpty then [] else [("attributes", .obj s.attributes)]) ++
  (if s.events.isEmpty then [] else [("events", .arr s.events)]) ++
  (match s.error with
   | some e => [("error", .obj [("type", .str e.etype), ("message", .str e.emsg)])]
   | none => [])

/-- The `AgentFlowEdge` built by `ActiveSpan._send`: session id is the
first 8 hex digits of the trace id, duration is end minus start (0 while
open), token count is the `total` usage entry. -/
def mk_edge (cfg : SDKConfig) (s : ActiveSpan) : AgentFlowEdge :=
  { tenant_id := cfg.tenant_id
    project_id := cfg.project_id
    agent_id := cfg.agent_id
    session_id := parseHex (s.trace_id.take 8)
    span_type := span_type_of_kind s.kind
    timestamp_us := s.start_time
    duration_us := match s.end_time with
      | some e => e - s.start_time
      | none => 0
    token_count := dictGet s.token_usage "total" 0
    payload := send_payload cfg s }

/-- `ActiveSpan._send`: nothing is handed over when the SDK is not
initialized or is disabled; otherwise the built edge goes to
`get_batching_client().insert(edge)`.  The hand-off is modelled as the
returned edge. -/
def send_span (initialized : Bool) (cfg : SDKConfig) (s : ActiveSpan) :
    Option AgentFlowEdge :=
  if !initialized then none
  else if !cfg.enabled then none
  else some (mk_edge cfg s)

/-- `ActiveSpan.end`: a no-op on an already-ended span; otherwise marks
the span ended, stamps `end_time`, and performs the `_send` hand-off. -/
def end_span (initialized : Bool) (cfg : SDKConfig) (s : ActiveSpan)
    (now : Nat) : ActiveSpan × Option AgentFlowEdge :=
  if s.ended then (s, none)
  else
    let s' := { s with ended := true, end_time := some now }
    (s', send_span initialized cfg s')

/-- Modelled from the spec: the state of `BatchingAgentreplayClient`
(module `agentreplay.batching`, absent from this source set): the bounded
FIFO buffer, the dropped counter, the retry queue (spec section 4.5) and
the last delivery error (spec section 7 requires it to be tracked). -/
structure BatchingState where
  buffer : List AgentFlowEdge
  dropped_count : Nat
  retry_queue : List (List AgentFlowEdge)
  last_error : Option String
  max_buffer_size : Nat

/-- Modelled from the spec: `BatchingAgentreplayClient.insert` (spec
section 4.5): append when the buffer has room, else drop the oldest entry
and count the drop. -/
def insert (st : BatchingState) (e : AgentFlowEdge) : BatchingState :=
  if st.buffer.length < st.max_buffer_size then
    { st with buffer := st.buffer ++ [e] }
  else
    { st with buffer := st.buffer.tail ++ [e],
              dropped_count := st.dropped_count + 1 }

/-! ## Identifier generation (`ActiveSpan._generate_id`) -/

/-- The 32 lowercase hex characters of `uuid.uuid4().hex`, as a function
of the 128-bit random value `n` drawn by `uuid4` (big-endian, left-padded
with zeros). -/
def uuid_hex_chars (n : Nat) : List Char :=
  (List.range 32).map fun i => hexChar (n / 16 ^ (31 - i) % 16)

/-- `uuid.uuid4().hex` as a string. -/
def uuid_hex (n : Nat) : String :=
  String.mk (uuid_hex_chars n)

/-- `ActiveSpan._generate_id`: `uuid.uuid4().hex[:16]` — the first 16
characters of the 32-character hex rendering. -/
def generate_id (n : Nat) : String :=
  String.mk ((uuid_hex_chars n).take 16)

/-! ## SDK global state and diagnostics (`agentreplay/sdk.py`) -/

/-- The module-level globals of `sdk.py`: `_initialized`, `_config`, and
`_batching_client`. -/
structure SdkState where
  initialized : Bool
  config : Option SDKConfig
  batching : Option BatchingState

/-- A value in the dict returned by `get_stats`. -/
inductive StatVal where
  | b (v : Bool)
  | n (v : Nat)
  deriving DecidableEq, Repr

/-- `get_stats`: the base entries always present, plus the queue-size,
dropped-count and retry-queue-size entries when a batching client exists. -/
def get_stats (st : SdkState) : List (String × StatVal) :=
  let base : List (String × StatVal) :=
    [("initialized", .b st.initialized),
     ("enabled", .b (match st.config with | some c => c.enabled | none => false)),
     ("debug", .b (match st.config with | some c => c.debug | none => false))]
  match st.batching with
  | none => base
  | some bc =>
      base ++ [("queue_size", .n bc.buffer.length),
               ("dropped_count", .n bc.dropped_count),
               ("retry_queue_size", .n bc.retry_queue.length)]

/-! ## `init` (`agentreplay/sdk.py`)

The process environment is an association list of variable names to
string values; the helpers `_get_env*` are translated below.  Numeric
parsing covers the decimal literals these variables hold (`int(...)` /
`float(...)` on other shapes fall back to the same defaults). -/

/-- The process environment: `os.environ`. -/
def Env : Type := List (String × String)

/-- `_get_env`. -/
def get_env (env : Env) (key : String) : Option String :=
  List.lookup key env

/-- Truthiness of an optional string (`None` and `""` are falsy), as used
by `api_key or ...` and `if not _config.api_key`. -/
def truthy (o : Option String) : Bool :=
  match o with
  | some s => s != ""
  | none => false

/-- `a or b` on an optional-string parameter versus a fallback lookup. -/
def pyOrStr (a : Option String) (b : Option String) : Option String :=
  if truthy a then a else b

/-- `a or b` where the fallback is a plain string. -/
def pyOrStrD (a : Option String) (b : String) : String :=
  match a with
  | some s => if s == "" then b else s
  | none => b

/-- Python digit test. -/
def isDigitChar (c : Char) : Bool :=
  48 ≤ c.toNat && c.toNat ≤ 57

/-- Value of an all-digit character list, `none` when empty or when a
non-digit occurs. -/
def parseDigits : List Char → Option Nat
  | [] => none
  | cs =>
    if cs.all isDigitChar then
      some (cs.foldl (fun acc c => 10 * acc + (c.toNat - 48)) 0)
    else none

/-- `int(s)` on a decimal literal with optional sign. -/
def parse_int (s : String) : Option Int :=
  match s.data with
  | '-' :: cs => (parseDigits cs).map fun n => -(n : Int)
  | '+' :: cs => (parseDigits cs).map fun n => (n : Int)
  | cs => (parseDigits cs).map fun n => (n : Int)

/-- `float(s)` on a plain decimal literal (optional sign, optional
fractional part); other accepted spellings of `float` do not occur in
these environment variables. -/
def parse_decimal (s : String) : Option Rat :=
  let signed : Bool × List Char :=
    match s.data with
    | '-' :: cs => (true, cs)
    | '+' :: cs => (false, cs)
    | cs => (false, cs)
  let mag : Option Rat :=
    match signed.2.splitOn '.' with
    | [ip] => (parseDigits ip).map fun n => (n : Rat)
    | [ip, fp] =>
        if ip.isEmpty && fp.isEmpty then none
        else if (ip.all isDigitChar) && (fp.all isDigitChar) then
          some ((((parseDigits ip).getD 0 : Nat) : Rat) +
            (((parseDigits fp).getD 0 : Nat) : Rat) / ((10 : Rat) ^ fp.length))
        else none
    | _ => none
  match mag with
  | some q => some (if signed.1 then -q else q)
  | none => none

/-- `_get_env_bool`. -/
def get_env_bool (env : Env) (key : String) (dflt : Bool) : Bool :=
  let val := pyLower ((get_env env key).getD "")
  if ["1", "true", "yes", "on"].contains val then true
  else if ["0", "false", "no", "off"].contains val then false
  else dflt

/-- `_get_env_int`. -/
def get_env_int (env : Env) (key : String) (dflt : Int) : Int :=
  match get_env env key with
  | none => dflt
  | some v => (parse_int v).getD dflt

/-- `_get_env_float`. -/
def get_env_float (env : Env) (key : String) (dflt : Rat) : Rat :=
  match get_env env key with
  | none => dflt
  | some v => (parse_decimal v).getD dflt

/-- `str.rstrip("/")`. -/
def rstripSlash (s : String) : String :=
  String.mk ((s.data.reverse.dropWhile (fun c => c == '/')).reverse)

/-- The keyword parameters of `init` (all default `None`). -/
structure InitParams where
  api_key : Option String
  base_url : Option String
  tenant_id : Option Int
  project_id : Option Int
  agent_id : Option Int
  environment : Option String
  service_name : Option String
  enabled : Option Bool
  debug : Option Bool
  strict : Option Bool
  batch_size : Option Nat
  flush_interval : Option Rat
  max_queue_size : Option Nat
  timeout : Option Rat
  capture_input : Option Bool
  capture_output : Option Bool
  redact_patterns : Option (List String)

/-- All parameters `None`: a bare `init()` call. -/
def InitParams.none_ : InitParams :=
  ⟨none, none, none, none, none, none, none, none, none, none, none, none,
   none, none, none, none, none⟩

/-- The `SDKConfig(...)` construction inside `init`: explicit parameters
take precedence (`or` / `is not None` exactly as the source mixes them),
environment variables next, then the documented defaults.
`flush_timeout` and `max_payload_size` keep their dataclass defaults. -/
def resolve_config (p : InitParams) (env : Env) : SDKConfig :=
  { api_key := pyOrStr p.api_key (get_env env "AGENTREPLAY_API_KEY")
    base_url := rstripSlash (pyOrStrD p.base_url
      ((get_env env "AGENTREPLAY_URL").getD "http://localhost:8080"))
    tenant_id := p.tenant_id.getD (get_env_int env "AGENTREPLAY_TENANT_ID" 1)
    project_id := p.project_id.getD (get_env_int env "AGENTREPLAY_PROJECT_ID" 0)
    agent_id := p.agent_id.getD (get_env_int env "AGENTREPLAY_AGENT_ID" 1)
    environment := pyOrStrD p.environment
      ((get_env env "AGENTREPLAY_ENVIRONMENT").getD "development")
    service_name := pyOrStrD p.service_name
      ((get_env env "AGENTREPLAY_SERVICE_NAME").getD "agentreplay-app")
    enabled := p.enabled.getD (get_env_bool env "AGENTREPLAY_ENABLED" true)
    debug := p.debug.getD (get_env_bool env "AGENTREPLAY_DEBUG" false)
    strict := p.strict.getD (get_env_bool env "AGENTREPLAY_STRICT" false)
    batch_size := p.batch_size.getD
      (get_env_int env "AGENTREPLAY_BATCH_SIZE" 100).toNat
    flush_interval := p.flush_interval.getD
      (get_env_float env "AGENTREPLAY_FLUSH_INTERVAL" 5)
    max_queue_size := p.max_queue_size.getD
      (get_env_int env "AGENTREPLAY_MAX_QUEUE_SIZE" 10000).toNat
    timeout := p.timeout.getD (get_env_float env "AGENTREPLAY_TIMEOUT" 30)
    flush_timeout := 5
    capture_input := p.capture_input.getD
      (get_env_bool env "AGENTREPLAY_CAPTURE_INPUT" true)
    capture_output := p.capture_output.getD
      (get_env_bool env "AGENTREPLAY_CAPTURE_OUTPUT" true)
    redact_patterns := match p.redact_patterns with
      | some l => if l.isEmpty then [] else l
      | none => []
    max_payload_size := 100000 }

/-- Modelled from the spec: the freshly constructed
`BatchingAgentreplayClient` of `init` starts with an empty buffer, no
drops, an empty retry queue and no recorded delivery error (spec sections
4.5 and 7). -/
def fresh_batching (cfg : SDKConfig) : BatchingState :=
  { buffer := [], dropped_count := 0, retry_queue := [],
    last_error := none, max_buffer_size := cfg.max_queue_size }

/-- `init`: returns the existing configuration when already initialized;
otherwise resolves the configuration, raises `ValueError` when strict
mode is on and no API key resolved (a missing key without strict mode
only logs a warning), creates the clients when enabled, and marks the
SDK initialized. -/
def init (st : SdkState) (p : InitParams) (env : Env) :
    Except String (Option SDKConfig × SdkState) :=
  if st.initialized then .ok (st.config, st)
  else
    let cfg := resolve_config p env
    if cfg.strict && !(truthy cfg.api_key) then
      .error "Agentreplay: API key required in strict mode."
    else
      .ok (some cfg,
        { initialized := true
          config := some cfg
          batching := if cfg.enabled then some (fresh_batching cfg) else none })

/-- The resolved API key, as `init` computes it. -/
def api_key_resolved (p : InitParams) (env : Env) : Option String :=
  pyOrStr p.api_key (get_env env "AGENTREPLAY_API_KEY")

/-- The resolved strict flag, as `init` computes it. -/
def strict_resolved (p : InitParams) (env : Env) : Bool :=
  p.strict.getD (get_env_bool env "AGENTREPLAY_STRICT" false)

/-! ## LangChain callback adapter (`examples/langchain_callback.py`)

`flowtrace.genai.GenAISpan` and `Flowtrace.send_span` are not part of this
source set; the span record is modelled from the spec's span model and the
attributes the handlers set, and the `send_span` effect is modelled as the
returned value.  Timestamps are `Nat` microseconds as elsewhere. -/

/-- Modelled from the spec: the `GenAISpan` record carried in the
handler's table (request attributes, prompt/completion messages, token
usage, string attributes). -/
structure GenAISpan where
  name : String
  system : String
  operation_name : String
  request_model : String
  temperature : Option Rat
  max_tokens : Option Nat
  prompts : List (String × String)
  completions : List (String × String × String)
  input_tokens : Option Nat
  output_tokens : Option Nat
  total_tokens : Option Nat
  attributes : List (String × String)
  deriving DecidableEq, Repr

/-- Modelled from the spec: `GenAISpan.add_completion(role, content,
finish_reason)` appends a completion message. -/
def add_completion (sp : GenAISpan) (role content finish : String) : GenAISpan :=
  { sp with completions := sp.completions ++ [(role, content, finish)] }

/-- Modelled from the spec: `GenAISpan.add_attribute(key, value)` records
a string attribute. -/
def add_attribute (sp : GenAISpan) (key value : String) : GenAISpan :=
  { sp with attributes := dictSet sp.attributes key value }

/-- The `active_spans` dict of `FlowtraceCallback`: correlation key (run
id) to `(span, start_time)`. -/
def SpanTable : Type := List (String × (GenAISpan × Nat))

/-- `dict.pop(k)` on the table.  A Python dict holds at most one binding
per key, so removal of every binding of `k` from the association list is
the same operation. -/
def dict_pop_key (tbl : SpanTable) (k : String) : SpanTable :=
  tbl.filter fun p => !(p.1 == k)

/-- A span handed to `Flowtrace.send_span(span, duration=...)`. -/
structure SentSpan where
  span : GenAISpan
  duration : Nat
  deriving DecidableEq, Repr

/-- The result object received by `on_llm_end`: the texts of
`response.generations[0]` and the optional `token_usage` triple of
`response.llm_output` (absent or empty `llm_output` is `none`). -/
structure LLMResult where
  generations0 : List String
  llm_output : Option (Option Nat × Option Nat × Option Nat)
  deriving DecidableEq, Repr

/-- `FlowtraceCallback.on_llm_end`: a run id with no table entry returns
immediately (no send, table untouched); otherwise the entry is popped,
completions and token usage are recorded, and the span is sent with the
elapsed duration. -/
def on_llm_end (tbl : SpanTable) (run_id : String) (response : LLMResult)
    (now : Nat) : SpanTable × Option SentSpan :=
  match List.lookup run_id tbl with
  | none => (tbl, none)
  | some (span, start_time) =>
      let tbl' := dict_pop_key tbl run_id
      let span1 := response.generations0.foldl
        (fun sp t => add_completion sp "assistant" t "stop") span
      let span2 := match response.llm_output with
        | none => span1
        | some (pt, ct, tt) =>
            { span1 with input_tokens := pt, output_tokens := ct,
                         total_tokens := tt }
      (tbl', some { span := span2, duration := now - start_time })

/-- `FlowtraceCallback.on_llm_error`: a run id with no table entry returns
immediately (no send, table untouched); otherwise the entry is popped,
`error.type` / `error.message` attributes are added, and the span is sent
with the elapsed duration. -/
def on_llm_error (tbl : SpanTable) (run_id : String) (etype emsg : String)
    (now : Nat) : SpanTable × Option SentSpan :=
  match List.lookup run_id tbl with
  | none => (tbl, none)
  | some (span, start_time) =>
      let tbl' := dict_pop_key tbl run_id
      let span' := add_attribute (add_attribute span "error.type" etype)
        "error.message" emsg
      (tbl', some { span := span', duration := now - start_time })

/-! ## Concrete fixtures used by witnesses and counterexamples -/

/-- The dataclass-default `SDKConfig`. -/
def sdkCfgDefault : SDKConfig :=
  { api_key := none, base_url := "http://localhost:8080", tenant_id := 1,
    project_id := 0, agent_id := 1, environment := "development",
    service_name := "agentreplay-app", enabled := true, debug := false,
    strict := false, batch_size := 100, flush_interval := 5,
    max_queue_size := 10000, timeout := 30, flush_timeout := 5,
    capture_input := true, capture_output := true, redact_patterns := [],
    max_payload_size := 100000 }

/-- A closed span fixture (end() already called). -/
def spanClosed : ActiveSpan :=
  { name := "op", kind := "chain", span_id := "a1b2c3d4e5f60718",
    parent_id := none, trace_id := "00000001aaaabbbb", start_time := 1000,
    end_time := some 2000, attributes := [], events := [],
    input_data := some (.str "before"), output_data := none, error := none,
    token_usage := [], ended := true }

/-- An open span fixture whose input holds a value a configured scrub
path would redact. -/
def spanOpen : ActiveSpan :=
  { name := "llm-call", kind := "llm", span_id := "1234123412341234",
    parent_id := none, trace_id := "00000001aaaabbbb", start_time := 1000,
    end_time := none, attributes := [], events := [],
    input_data := some (.obj [("password", .str "hunter2")]),
    output_data := none, error := none, token_usage := [], ended := false }

/-- A privacy configuration scrubbing the `password` key (no patterns). -/
def pcfgPassword : PrivacyConfig :=
  { enabled := true, redact_patterns := [], scrub_paths := ["password"],
    hash_pii := false, hash_salt := "", custom_redactor := none,
    redacted_text := "[REDACTED]", hash_value := fun _ => "" }

/-- The open span fixture with an output value as well. -/
def spanBoth : ActiveSpan :=
  { spanOpen with output_data := some (.str "ok") }

/-- The scenario privacy configuration of C4. -/
def pcfgInputPassword : PrivacyConfig :=
  { pcfgPassword with scrub_paths := ["input.password"] }

/-- A batching-client state with drops and a recorded delivery error. -/
def batchWithError : BatchingState :=
  { buffer := [], dropped_count := 3, retry_queue := [],
    last_error := some "connection refused", max_buffer_size := 10 }

/-- A span fixture for the callback table. -/
def gspanFixture : GenAISpan :=
  { name := "langchain.gpt-4", system := "openai",
    operation_name := "completion", request_model := "gpt-4",
    temperature := none, max_tokens := none,
    prompts := [("user", "hi")], completions := [],
    input_tokens := none, output_tokens := none, total_tokens := none,
    attributes := [] }

/-- Lowercase-hex digit test. -/
def isHexDigitChar (c : Char) : Bool :=
  (48 ≤ c.toNat && c.toNat ≤ 57) || (97 ≤ c.toNat && c.toNat ≤ 102)

/-- No configured pattern matches the string `s`. -/
def StringUnmatched (cfg : PrivacyConfig) (s : String) : Prop :=
  ∀ p ∈ cfg.redact_patterns,
    p.subConst cfg.redacted_text s = s ∧ p.subFun cfg.hash_value s = s

mutual

/-- No node of the payload sits on a scrubbed key-path (the root path
`""` is exempt, as in `_redact_value`), and no string leaf matches a
configured pattern. -/
inductive NoMatch (cfg : PrivacyConfig) : JValue → String → Prop where
  | str (s path : String)
      (h1 : path = "" ∨ should_scrub_path cfg path = false)
      (h2 : StringUnmatched cfg s) : NoMatch cfg (.str s) path
  | num (n : Int) (path : String)
      (h1 : path = "" ∨ should_scrub_path cfg path = false) :
      NoMatch cfg (.num n) path
  | bool (b : Bool) (path : String)
      (h1 : path = "" ∨ should_scrub_path cfg path = false) :
      NoMatch cfg (.bool b) path
  | null (path : String)
      (h1 : path = "" ∨ should_scrub_path cfg path = false) :
      NoMatch cfg .null path
  | arr (xs : List JValue) (path : String)
      (h1 : path = "" ∨ should_scrub_path cfg path = false)
      (h2 : NoMatchItems cfg xs path 0) : NoMatch cfg (.arr xs) path
  | obj (fs : List (String × JValue)) (path : String)
      (h1 : path = "" ∨ should_scrub_path cfg path = false)
      (h2 : NoMatchFields cfg fs path) : NoMatch cfg (.obj fs) path

/-- Pointwise `NoMatch` over list elements with their enumerated paths. -/
inductive NoMatchItems (cfg : PrivacyConfig) :
    List JValue → String → Nat → Prop where
  | nil (path : String) (i : Nat) : NoMatchItems cfg [] path i
  | cons (x : JValue) (xs : List JValue) (path : String) (i : Nat)
      (h : NoMatch cfg x (path ++ "[" ++ toString i ++ "]"))
      (hs : NoMatchItems cfg xs path (i + 1)) :
      NoMatchItems cfg (x :: xs) path i

/-- Pointwise `NoMatch` over dict entries with their key paths. -/
inductive NoMatchFields (cfg : PrivacyConfig) :
    List (String × JValue) → String → Prop where
  | nil (path : String) : NoMatchFields cfg [] path
  | cons (k : String) (x : JValue) (fs : List (String × JValue))
      (path : String)
      (h : NoMatch cfg x (if path = "" then k else path ++ "." ++ k))
      (hs : NoMatchFields cfg fs path) :
      NoMatchFields cfg ((k, x) :: fs) path

end

/-! ## C2 — idempotent close -/

/-- C2: calling `end()` twice is equivalent to calling it once — the
second call (a total function here, so it cannot raise) leaves the span
unchanged (in particular `end_time`) and hands nothing to the batching
client a second time. -/
theorem end_twice_eq_once (initialized : Bool) (cfg : SDKConfig)
    (s : ActiveSpan) (n1 n2 : Nat) :
    end_span initialized cfg (end_span initialized cfg s n1).1 n2 =
      ((end_span initialized cfg s n1).1, none) := by
  by_cases h : s.ended <;> simp [end_span, h]

/-! ## C3 — mutators after end() -/

/-- C3 counterexample: `set_input` on a span whose `end()` has already run
does change `input_data` — the mutators are not no-ops after close. -/
theorem set_input_mutates_closed_span :
    (set_input spanClosed (.str "after")).input_data ≠
      spanClosed.input_data := by decide

/-- C3 (amended): after `end()` the mutators still overwrite their fields
(they are not guarded by the ended flag), but every mutator leaves the
ended flag and `end_time` untouched, so the already-delivered span is
never handed to the batching client again (`end()` on the mutated span
still delivers nothing). -/
theorem mutators_after_end (initialized : Bool) (cfg : SDKConfig)
    (s : ActiveSpan) (h : s.ended = true) (d d' : JValue) (k : String)
    (v : JValue) (e : SpanError) (pt ct tt : Option Nat) (now : Nat) :
    (set_input s d).input_data = some d ∧
    (set_output s d').output_data = some d' ∧
    (set_attribute s k v).attributes = dictSet s.attributes k v ∧
    (set_error s e).error = some e ∧
    ((set_input s d).ended = true ∧ (set_input s d).end_time = s.end_time) ∧
    ((set_output s d').ended = true ∧ (set_output s d').end_time = s.end_time) ∧
    ((set_attribute s k v).ended = true ∧
      (set_attribute s k v).end_time = s.end_time) ∧
    ((set_error s e).ended = true ∧ (set_error s e).end_time = s.end_time) ∧
    ((set_token_usage s pt ct tt).ended = true ∧
      (set_token_usage s pt ct tt).end_time = s.end_time) ∧
    end_span initialized cfg (set_input s d) now = (set_input s d, none) ∧
    end_span initialized cfg (set_output s d') now = (set_output s d', none) ∧
    end_span initialized cfg (set_attribute s k v) now =
      (set_attribute s k v, none) ∧
    end_span initialized cfg (set_error s e) now = (set_error s e, none) ∧
    end_span initialized cfg (set_token_usage s pt ct tt) now =
      (set_token_usage s pt ct tt, none) := by
  cases pt <;> cases ct <;> cases tt <;>
    simp [set_input, set_output, set_attribute, set_error, set_token_usage,
      end_span, h]

/-- Witness for the amended C3 theorem at a concrete closed span. -/
theorem mutators_after_end_witness :
    spanClosed.ended = true ∧
    (set_input spanClosed (.str "after")).input_data = some (.str "after") :=
  ⟨by decide,
    (mutators_after_end true sdkCfgDefault spanClosed (by decide)
      (.str "after") (.str "out") "key" (.num 1) ⟨"E", "m", "tb"⟩
      none none none 99).1⟩

/-! ## C6 — identifier width -/

theorem hexChar_isHex (d : Nat) (h : d < 16) :
    isHexDigitChar (hexChar d) = true := by
  interval_cases d <;> decide

/-- C6 counterexample: the id generated for span and trace identifiers is
not a 32-hex-digit string (it has 16 digits), already at a concrete
uuid4 draw. -/
theorem generate_id_not_32_digits :
    ¬ (generate_id 123456789012345678901234567890123456789).length = 32 := by
  decide

/-- C6 (amended): every generated identifier is the first 16 hex digits
of the 32-digit hex rendering of the 128-bit uuid4 value: a 16-character
(64-bit) lowercase-hex string. -/
theorem generate_id_16_hex (n : Nat) :
    (generate_id n).length = 16 ∧
    ∀ c ∈ (generate_id n).data, isHexDigitChar c = true := by
  constructor
  · show ((uuid_hex_chars n).take 16).length = 16
    simp [uuid_hex_chars]
  · intro c hc
    have hc' : c ∈ uuid_hex_chars n :=
      List.mem_of_mem_take (by simpa [generate_id] using hc)
    simp only [uuid_hex_chars, List.mem_map, List.mem_range] at hc'
    obtain ⟨i, _, rfl⟩ := hc'
    exact hexChar_isHex _ (Nat.mod_lt _ (by norm_num))

/-! ## C7 — diagnostics -/

/-- C7: whenever a batching client exists, `get_stats` exposes the
dropped-span count, but the returned dict never carries a `last_error`
entry — contradicting the function's own docstring, which promises
`last_error` among the returned keys. -/
theorem get_stats_no_last_error (st : SdkState) (bc : BatchingState)
    (h : st.batching = some bc) :
    List.lookup "dropped_count" (get_stats st) = some (.n bc.dropped_count) ∧
    List.lookup "last_error" (get_stats st) = none := by
  unfold get_stats
  rw [h]
  exact ⟨rfl, rfl⟩

/-- Witness for `get_stats_no_last_error` on a concrete initialized
state. -/
theorem get_stats_no_last_error_witness :
    List.lookup "dropped_count"
        (get_stats ⟨true, some sdkCfgDefault, some batchWithError⟩) =
      some (.n 3) ∧
    List.lookup "last_error"
        (get_stats ⟨true, some sdkCfgDefault, some batchWithError⟩) = none :=
  get_stats_no_last_error ⟨true, some sdkCfgDefault, some batchWithError⟩
    batchWithError rfl

/-! ## C9 / C10 — callback adapter -/

/-- Popping a key removes every binding of it. -/
theorem lookup_dict_pop (tbl : SpanTable) (k : String) :
    List.lookup k (dict_pop_key tbl k) = none := by
  induction tbl with
  | nil => rfl
  | cons p rest ih =>
      obtain ⟨k1, v1⟩ := p
      unfold dict_pop_key at ih ⊢
      rw [List.filter_cons]
      by_cases h : k1 = k
      · subst h
        simpa using ih
      · have hb : (k1 == k) = false := by simp [h]
        have hkb : (k == k1) = false := by simp [Ne.symm h]
        simp [hb, List.lookup, hkb, ih]

/-- C9: an end or error event whose run id has no entry in the
active-span table raises nothing (the handlers are total), sends no span,
and leaves the table unchanged. -/
theorem missing_run_id_noop (tbl : SpanTable) (rid : String)
    (resp : LLMResult) (etype emsg : String) (n1 n2 : Nat)
    (h : List.lookup rid tbl = none) :
    on_llm_end tbl rid resp n1 = (tbl, none) ∧
    on_llm_error tbl rid etype emsg n2 = (tbl, none) := by
  exact ⟨by simp [on_llm_end, h], by simp [on_llm_error, h]⟩

/-- Witness for `missing_run_id_noop`: an end/error event for run id
`"r2"` against a table holding only `"r1"`. -/
theorem missing_run_id_noop_witness :
    on_llm_end [("r1", (gspanFixture, 5))] "r2" ⟨["ok"], none⟩ 9 =
      ([("r1", (gspanFixture, 5))], none) ∧
    on_llm_error [("r1", (gspanFixture, 5))] "r2" "ValueError" "boom" 9 =
      ([("r1", (gspanFixture, 5))], none) :=
  missing_run_id_noop [("r1", (gspanFixture, 5))] "r2" ⟨["ok"], none⟩
    "ValueError" "boom" 9 9 (by decide)

/-- C10: both handlers pop the run id's entry before sending, so after
any end or error event for a run id its entry is gone and every
subsequent end or error event carrying the same run id sends nothing and
changes nothing — at most one span is sent per run id. -/
theorem at_most_one_send_per_run_id (tbl : SpanTable) (rid : String)
    (resp resp2 : LLMResult) (et em et2 em2 : String) (n1 n2 : Nat) :
    List.lookup rid (on_llm_end tbl rid resp n1).1 = none ∧
    List.lookup rid (on_llm_error tbl rid et em n1).1 = none ∧
    on_llm_end (on_llm_end tbl rid resp n1).1 rid resp2 n2 =
      ((on_llm_end tbl rid resp n1).1, none) ∧
    on_llm_error (on_llm_end tbl rid resp n1).1 rid et2 em2 n2 =
      ((on_llm_end tbl rid resp n1).1, none) ∧
    on_llm_end (on_llm_error tbl rid et em n1).1 rid resp2 n2 =
      ((on_llm_error tbl rid et em n1).1, none) ∧
    on_llm_error (on_llm_error tbl rid et em n1).1 rid et2 em2 n2 =
      ((on_llm_error tbl rid et em n1).1, none) := by
  have key_end : ∀ (t : SpanTable), List.lookup rid t = none →
      on_llm_end t rid resp2 n2 = (t, none) := by
    intro t ht
    unfold on_llm_end
    rw [ht]
  have key_err : ∀ (t : SpanTable), List.lookup rid t = none →
      on_llm_error t rid et2 em2 n2 = (t, none) := by
    intro t ht
    unfold on_llm_error
    rw [ht]
  have h1 : List.lookup rid (on_llm_end tbl rid resp n1).1 = none := by
    unfold on_llm_end
    cases h : List.lookup rid tbl with
    | none => exact h
    | some v =>
        obtain ⟨sp, st⟩ := v
        exact lookup_dict_pop tbl rid
  have h2 : List.lookup rid (on_llm_error tbl rid et em n1).1 = none := by
    unfold on_llm_error
    cases h : List.lookup rid tbl with
    | none => exact h
    | some v =>
        obtain ⟨sp, st⟩ := v
        exact lookup_dict_pop tbl rid
  exact ⟨h1, h2, key_end _ h1, key_err _ h1, key_end _ h2, key_err _ h2⟩

/-! ## C1 — no redaction on the delivery path -/

/-- C1 counterexample: closing a span whose input a configured scrub path
(`"password"`) would redact hands the batching client the raw value: the
`input` payload delivered by `_send` (and sitting in the delivery buffer
after `insert`) is the caller-set data, not `redact_payload` of it. -/
theorem send_not_redacted :
    ((end_span true sdkCfgDefault spanOpen 2000).2.map
        (fun e => List.lookup "input" e.payload)) =
      some (some (.obj [("password", .str "hunter2")])) ∧
    redact_payload pcfgPassword (.obj [("password", .str "hunter2")]) =
      .obj [("password", .str "[REDACTED]")] ∧
    ((end_span true sdkCfgDefault spanOpen 2000).2.map
        (fun e => (insert (fresh_batching sdkCfgDefault) e).buffer.map
          (fun ed => List.lookup "input" ed.payload))) =
      some [some (.obj [("password", .str "hunter2")])] ∧
    (JValue.obj [("password", .str "hunter2")]) ≠
      (.obj [("password", .str "[REDACTED]")]) :=
  ⟨by decide, by decide, by decide, by decide⟩

/-- C1 (amended): the payload handed over by `_send` carries the
caller-set input and output data unchanged whenever their JSON rendering
is within the 10000-character bound of `_safe_serialize`; no redaction is
applied on the way into the delivery buffer (the result does not depend
on any privacy configuration — `redact_payload` is never invoked). -/
theorem send_payload_raw (cfg : SDKConfig) (s : ActiveSpan)
    (din dout : JValue)
    (hci : cfg.capture_input = true) (hi : s.input_data = some din)
    (hli : ¬ (jserialize din).length > 10000)
    (hco : cfg.capture_output = true) (ho : s.output_data = some dout)
    (hlo : ¬ (jserialize dout).length > 10000) :
    List.lookup "input" (send_payload cfg s) = some din ∧
    List.lookup "output" (send_payload cfg s) = some dout := by
  unfold send_payload safe_serialize
  rw [hi, ho]
  simp [hci, hco, hli, hlo, List.lookup]

/-- Witness for `send_payload_raw` at the concrete fixture. -/
theorem send_payload_raw_witness :
    List.lookup "input" (send_payload sdkCfgDefault spanBoth) =
      some (.obj [("password", .str "hunter2")]) ∧
    List.lookup "output" (send_payload sdkCfgDefault spanBoth) =
      some (.str "ok") :=
  send_payload_raw sdkCfgDefault spanBoth
    (.obj [("password", .str "hunter2")]) (.str "ok")
    rfl rfl (by decide) rfl rfl (by decide)

/-! ## C8 — strict-mode validation in `init` -/

/-- C8: on a fresh (not yet initialized) state, `init` raises exactly when
the resolved strict flag is set and no API key resolves from the explicit
parameter or the environment (Python truthiness: an empty string counts
as missing); with strict mode off it always returns a configuration
without raising. -/
theorem init_strict_iff (st : SdkState) (p : InitParams) (env : Env)
    (h : st.initialized = false) :
    ((∃ msg, init st p env = .error msg) ↔
      (strict_resolved p env = true ∧ truthy (api_key_resolved p env) = false)) ∧
    (strict_resolved p env = false →
      ∃ st', init st p env = .ok (some (resolve_config p env), st')) := by
  have hs : (resolve_config p env).strict = strict_resolved p env := rfl
  have hk : (resolve_config p env).api_key = api_key_resolved p env := rfl
  unfold init
  rw [h]
  simp only [Bool.false_eq_true, if_false, hs, hk]
  constructor
  · constructor
    · intro ⟨msg, hmsg⟩
      by_cases hc : strict_resolved p env = true ∧
          truthy (api_key_resolved p env) = false
      · exact hc
      · exfalso
        have hfalse : (strict_resolved p env &&
            !truthy (api_key_resolved p env)) = false := by
          by_cases h1 : strict_resolved p env = true
          · by_cases h2 : truthy (api_key_resolved p env) = true
            · simp [h2]
            · have h2' : truthy (api_key_resolved p env) = false := by
                simpa using h2
              exact absurd ⟨h1, h2'⟩ hc
          · have h1' : strict_resolved p env = false := by simpa using h1
            simp [h1']
        rw [hfalse] at hmsg
        simp at hmsg
    · intro ⟨h1, h2⟩
      refine ⟨"Agentreplay: API key required in strict mode.", ?_⟩
      rw [if_pos (by simp [h1, h2])]
  · intro hstrict
    refine ⟨⟨true, some (resolve_config p env),
      if (resolve_config p env).enabled = true then
        some (fresh_batching (resolve_config p env)) else none⟩, ?_⟩
    rw [if_neg (by simp [hstrict])]

/-- Witness for `init_strict_iff`: strict mode requested explicitly, no
key anywhere — the error side of the iff fires; and the same call with
strict off returns a configuration. -/
theorem init_strict_iff_witness :
    ((∃ msg, init ⟨false, none, none⟩
        { InitParams.none_ with strict := some true } [] = .error msg) ↔
      (strict_resolved { InitParams.none_ with strict := some true } [] = true ∧
        truthy (api_key_resolved
          { InitParams.none_ with strict := some true } []) = false)) ∧
    (strict_resolved { InitParams.none_ with strict := some true } [] = false →
      ∃ st', init ⟨false, none, none⟩
        { InitParams.none_ with strict := some true } [] =
          .ok (some (resolve_config
            { InitParams.none_ with strict := some true } []), st')) :=
  init_strict_iff ⟨false, none, none⟩
    { InitParams.none_ with strict := some true } [] rfl

/-! ## C4 / C5 — redaction scenario and round-trip

"A string leaf matches no configured pattern" is expressed as: every
configured pattern's substitution (in both marker and hashing mode)
leaves the leaf unchanged — exactly what `pattern.sub` does on a
non-matching string. -/

theorem path_cond_false {cfg : PrivacyConfig} {path : String}
    (h : path = "" ∨ should_scrub_path cfg path = false) :
    (path != "" && should_scrub_path cfg path) = false := by
  rcases h with h | h
  · simp [h]
  · simp [h]

theorem applyPatterns_fixed (cfg : PrivacyConfig)
    (ps : List PrivacyPattern) (s : String)
    (h : ∀ p ∈ ps, p.subConst cfg.redacted_text s = s ∧
      p.subFun cfg.hash_value s = s) :
    applyPatterns cfg ps s = s := by
  induction ps with
  | nil => rfl
  | cons p rest ih =>
      have hp := h p (by simp)
      by_cases hh : cfg.hash_pii <;>
        simp [applyPatterns, hh, hp.1, hp.2,
          ih (fun q hq => h q (by simp [hq]))]

theorem redact_string_fixed (cfg : PrivacyConfig) (s : String)
    (hcu : cfg.custom_redactor = none) (h : StringUnmatched cfg s) :
    redact_string cfg s = s := by
  by_cases hs : s = ""
  · simp [redact_string, hs]
  · simp [redact_string, hs, hcu, applyPatterns_fixed cfg _ s h]

mutual

theorem redact_value_nomatch (cfg : PrivacyConfig)
    (hcu : cfg.custom_redactor = none) :
    ∀ {v : JValue} {path : String}, NoMatch cfg v path →
      redact_value cfg v path = v
  | _, _, .str s path h1 h2 => by
      simp [redact_value, path_cond_false h1,
        redact_string_fixed cfg s hcu h2]
  | _, _, .num n path h1 => by simp [redact_value, path_cond_false h1]
  | _, _, .bool b path h1 => by simp [redact_value, path_cond_false h1]
  | _, _, .null path h1 => by simp [redact_value, path_cond_false h1]
  | _, _, .arr xs path h1 h2 => by
      simp [redact_value, path_cond_false h1,
        redact_items_nomatch cfg hcu h2]
  | _, _, .obj fs path h1 h2 => by
      simp [redact_value, path_cond_false h1,
        redact_fields_nomatch cfg hcu h2]

theorem redact_items_nomatch (cfg : PrivacyConfig)
    (hcu : cfg.custom_redactor = none) :
    ∀ {xs : List JValue} {path : String} {i : Nat},
      NoMatchItems cfg xs path i → redact_items cfg xs path i = xs
  | _, _, _, .nil path i => by simp [redact_items]
  | _, _, _, .cons x xs path i h hs => by
      simp [redact_items, redact_value_nomatch cfg hcu h,
        redact_items_nomatch cfg hcu hs]

theorem redact_fields_nomatch (cfg : PrivacyConfig)
    (hcu : cfg.custom_redactor = none) :
    ∀ {fs : List (String × JValue)} {path : String},
      NoMatchFields cfg fs path → redact_fields cfg fs path = fs
  | _, _, .nil path => by simp [redact_fields]
  | _, _, .cons k x fs path h hs => by
      simp [redact_fields, redact_value_nomatch cfg hcu h,
        redact_fields_nomatch cfg hcu hs]

end

/-- C5: a payload built from dicts, lists, strings and scalars in which no
string leaf matches any configured pattern and no key-path matches any
scrub path (with no custom redactor — the spec's configuration surface
has none) is returned by `redact_payload` equal to the input. -/
theorem redact_payload_id (cfg : PrivacyConfig) (v : JValue)
    (hcu : cfg.custom_redactor = none) (h : NoMatch cfg v "") :
    redact_payload cfg v = v := by
  by_cases he : cfg.enabled = true
  · simp [redact_payload, he, redact_value_nomatch cfg hcu h]
  · have he' : cfg.enabled = false := by simpa using he
    simp [redact_payload, he']

/-- Witness for `redact_payload_id`: scrub path `"password"` configured,
payload `{"user": "bob"}` touches neither it nor any pattern. -/
theorem redact_payload_id_witness :
    redact_payload pcfgPassword (.obj [("user", .str "bob")]) =
      .obj [("user", .str "bob")] :=
  redact_payload_id pcfgPassword (.obj [("user", .str "bob")]) rfl
    (.obj _ _ (Or.inl rfl)
      (.cons "user" (.str "bob") [] ""
        (.str "bob" _ (Or.inr (by decide))
          (fun p hp => absurd hp (List.not_mem_nil p)))
        (.nil "")))

/-- C4: with `scrub_paths = ["input.password"]` (builtin patterns leave
`"hello"` unmatched, which is the `StringUnmatched` hypothesis), redacting
`{"input": {"password": "secret123", "query": "hello"}}` yields
`{"input": {"password": "[REDACTED]", "query": "hello"}}`; and at every
node the path-scrub check runs before pattern substitution: any non-root
scrubbed path maps the whole subtree to the marker, with no pattern work
on it (the result does not depend on the subtree or the patterns). -/
theorem scrub_path_scenario (cfg : PrivacyConfig)
    (hen : cfg.enabled = true)
    (hsp : cfg.scrub_paths = ["input.password"])
    (hrt : cfg.redacted_text = "[REDACTED]")
    (hcu : cfg.custom_redactor = none)
    (hpat : StringUnmatched cfg "hello") :
    redact_payload cfg
      (.obj [("input", .obj [("password", .str "secret123"),
        ("query", .str "hello")])]) =
      .obj [("input", .obj [("password", .str "[REDACTED]"),
        ("query", .str "hello")])] ∧
    (∀ (v : JValue) (path : String), path ≠ "" →
      should_scrub_path cfg path = true →
      redact_value cfg v path = .str cfg.redacted_text) := by
  have hshort : ∀ (v : JValue) (path : String), path ≠ "" →
      should_scrub_path cfg path = true →
      redact_value cfg v path = .str cfg.redacted_text := by
    intro v path hne hs
    have hbne : (path != "") = true := by simpa using hne
    rw [redact_value.eq_def]
    simp [hbne, hs]
  refine ⟨?_, hshort⟩
  have hq : redact_string cfg "hello" = "hello" :=
    redact_string_fixed cfg "hello" hcu hpat
  have hs1 : should_scrub_path cfg "input" = false := by
    simp only [should_scrub_path, hsp]; decide
  have hs2 : should_scrub_path cfg "input.password" = true := by
    simp only [should_scrub_path, hsp]; decide
  have hs2' : should_scrub_path cfg ("input" ++ "." ++ "password") = true := by
    simp only [should_scrub_path, hsp]; decide
  have hs3 : should_scrub_path cfg "input.query" = false := by
    simp only [should_scrub_path, hsp]; decide
  have hs3' : should_scrub_path cfg ("input" ++ "." ++ "query") = false := by
    simp only [should_scrub_path, hsp]; decide
  simp [redact_payload, hen, redact_value, redact_fields, hs1, hs2, hs2',
    hs3, hs3', hq, hrt]

/-- Witness for `scrub_path_scenario` at the concrete scenario
configuration, with the short-circuit part applied at the concrete path
`"x.input.password"`. -/
theorem scrub_path_scenario_witness :
    redact_payload pcfgInputPassword
      (.obj [("input", .obj [("password", .str "secret123"),
        ("query", .str "hello")])]) =
      .obj [("input", .obj [("password", .str "[REDACTED]"),
        ("query", .str "hello")])] ∧
    redact_value pcfgInputPassword (.obj [("k", .str "v")])
      "x.input.password" = .str "[REDACTED]" :=
  ⟨(scrub_path_scenario pcfgInputPassword rfl rfl rfl rfl
      (fun p hp => absurd hp (List.not_mem_nil p))).1,
   (scrub_path_scenario pcfgInputPassword rfl rfl rfl rfl
      (fun p hp => absurd hp (List.not_mem_nil p))).2
      (.obj [("k", .str "v")]) "x.input.password" (by decide) (by decide)⟩

end AgentReplay
